import Mathlib

/-
Verification of the cyanide-go device core against its specification.

The definitions below are a shallow embedding of the Go sources:
  - the obfuscation configuration handler handlePostConfig,
  - the device state machine changeState / Close,
  - the static identity rotation SetPrivateKey and the peer removal path
    removePeerLocked / RemovePeer / RemoveAllPeers,
  - the load detector IsUnderLoad,
  - a spec-modelled transition system for the bounded WaitPool.

Go machine integers: the junk sizes are Go int (no overflow is reachable in
the checked ranges, so they are embedded as Int); the magic headers are Go
uint32 used only in comparisons and equality tests, embedded as Nat.
Go maps are embedded as association lists; deleting key k removes every
entry with key k, and the key count of a map literal is the number of
distinct keys.
-/

namespace Cyanide

/-- From src/device/sticky_default.go: QueueHandshakeSize = 1024. -/
def QueueHandshakeSize : Nat := 1024

/-- From src/device/sticky_default.go: MaxSegmentSize = (1 << 16) - 1. -/
def MaxSegmentSize : Int := 65535

/-- Modelled from the spec: MessageInitiationSize is defined outside the given
sources; the error strings of handlePostConfig pin it to 148 (init header size(148)),
as does the spec table in section 6. -/
def MessageInitiationSize : Int := 148

/-- Modelled from the spec: MessageResponseSize is defined outside the given
sources; the error strings of handlePostConfig pin it to 92 (response header size(92)),
as does the spec table in section 6. -/
def MessageResponseSize : Int := 92

/-- Modelled from the spec: MessageCookieReplySize is defined outside the given
sources; it only occurs as a key of the dispatch table, no claim depends on its
value (64, the upstream constant). -/
def MessageCookieReplySize : Int := 64

/-- Modelled from the spec: MessageTransportSize is defined outside the given
sources; it only occurs as a key of the dispatch table, no claim depends on its
value (32, the upstream constant). -/
def MessageTransportSize : Int := 32

/-- The aSecConfType structure of the source (device package). -/
structure ASecConf where
  isSet : Bool
  junkPacketCount : Int
  junkPacketMinSize : Int
  junkPacketMaxSize : Int
  initPacketJunkSize : Int
  responsePacketJunkSize : Int
  initPacketMagicHeader : Nat
  responsePacketMagicHeader : Nat
  underloadPacketMagicHeader : Nat
  transportPacketMagicHeader : Nat
deriving DecidableEq

/-- The live obfuscation state touched by handlePostConfig: the device fields
aSecConf and isASecOn, the four package-level message-type tags, and the two
package-level dispatch tables (embedded as association lists in insertion
order of the Go map literals). -/
structure ObfState where
  aSecConf : ASecConf
  isASecOn : Bool
  messageInitiationType : Nat
  messageResponseType : Nat
  messageCookieReplyType : Nat
  messageTransportType : Nat
  packetSizeToMsgType : List (Int × Nat)
  msgTypeToJunkSize : List (Nat × Int)
deriving DecidableEq

/-- Ipc error codes; every error raised by handlePostConfig carries
ipc.IpcErrorInvalid. -/
inductive IpcCode where
  | invalid
  | other (n : Int)
deriving DecidableEq

/-- The distinct validation faults of handlePostConfig, standing in for the
format strings of the source. -/
inductive Fault where
  | junkCountNegative
  | junkMaxTooBig
  | maxLessThanMin
  | initSizeTooBig
  | respSizeTooBig
  | magicCollision
  | sizesEqual
deriving DecidableEq

/-- Errors built by ipcErrorf: a code, a fault, and optionally the previous
error chained through the w format verb. -/
inductive CErr where
  | single (code : IpcCode) (k : Fault)
  | wrap (code : IpcCode) (k : Fault) (prev : CErr)
deriving DecidableEq

/-- ipcErrorf as used in handlePostConfig: every call site first tests whether
an error is already pending and, if so, chains it. -/
def ipcErrorfWrap (code : IpcCode) (k : Fault) (prev : Option CErr) : CErr :=
  match prev with
  | none => CErr.single code k
  | some e => CErr.wrap code k e

/-- The ipc error code of an error. -/
def CErr.code : CErr → IpcCode
  | CErr.single c _ => c
  | CErr.wrap c _ _ => c

/-- Accumulator threaded through handlePostConfig: the live state, the
(pointer-mutable) temporary config, the pending error, and the local
isASecOn flag. -/
structure Acc where
  d : ObfState
  temp : ASecConf
  err : Option CErr
  isASecOn : Bool
deriving DecidableEq

/-- Lines 709-825 of the source file: the junk packet count / min / max and the
two junk size validations, each assignment and error exactly as in the Go body.
The branch conditions are duplicated between the state and the error update;
both read the same values, so this equals the single Go if statement.  The
intermediate values are named top-level definitions (rather than lets) so
terms stay shared. -/
def junkConfA (a : Acc) : ASecConf :=
  { a.d.aSecConf with junkPacketCount := a.temp.junkPacketCount,
                      junkPacketMinSize := a.temp.junkPacketMinSize }

/-- Line 730 of the source file: the max bump when count is positive and
min equals max; the condition reads the device count just assigned. -/
def junkTempMax (a : Acc) : Int :=
  if (junkConfA a).junkPacketCount > 0 &&
      a.temp.junkPacketMaxSize == a.temp.junkPacketMinSize then
    a.temp.junkPacketMaxSize + 1
  else a.temp.junkPacketMaxSize

/-- The temp config after the in-place max bump (it is passed by pointer). -/
def junkTemp1 (a : Acc) : ASecConf :=
  { a.temp with junkPacketMaxSize := junkTempMax a }

/-- Lines 733-771 of the source file: the max segment and min/max checks. -/
def junkConfB (a : Acc) : ASecConf :=
  if (junkTemp1 a).junkPacketMaxSize ≥ MaxSegmentSize then
    { junkConfA a with junkPacketMinSize := 0, junkPacketMaxSize := 1 }
  else if (junkTemp1 a).junkPacketMaxSize < (junkTemp1 a).junkPacketMinSize then
    junkConfA a
  else { junkConfA a with junkPacketMaxSize := (junkTemp1 a).junkPacketMaxSize }

/-- Lines 777-796 of the source file: the init junk size check. -/
def junkConfC (a : Acc) : ASecConf :=
  if MessageInitiationSize + (junkTemp1 a).initPacketJunkSize ≥ MaxSegmentSize then
    junkConfB a
  else { junkConfB a with initPacketJunkSize := (junkTemp1 a).initPacketJunkSize }

/-- Lines 802-821 of the source file: the response junk size check. -/
def junkConfD (a : Acc) : ASecConf :=
  if MessageResponseSize + (junkTemp1 a).responsePacketJunkSize ≥ MaxSegmentSize then
    junkConfC a
  else { junkConfC a with responsePacketJunkSize := (junkTemp1 a).responsePacketJunkSize }

/-- Line 711 of the source file: the negative count error. -/
def junkErrA (a : Acc) : Option CErr :=
  if a.temp.junkPacketCount < 0 then
    some (ipcErrorfWrap IpcCode.invalid Fault.junkCountNegative none)
  else a.err

/-- Lines 733-768 of the source file: the max segment and min/max errors. -/
def junkErrB (a : Acc) : Option CErr :=
  if (junkTemp1 a).junkPacketMaxSize ≥ MaxSegmentSize then
    some (ipcErrorfWrap IpcCode.invalid Fault.junkMaxTooBig (junkErrA a))
  else if (junkTemp1 a).junkPacketMaxSize < (junkTemp1 a).junkPacketMinSize then
    some (ipcErrorfWrap IpcCode.invalid Fault.maxLessThanMin (junkErrA a))
  else junkErrA a

/-- Lines 777-793 of the source file: the init junk size error. -/
def junkErrC (a : Acc) : Option CErr :=
  if MessageInitiationSize + (junkTemp1 a).initPacketJunkSize ≥ MaxSegmentSize then
    some (ipcErrorfWrap IpcCode.invalid Fault.initSizeTooBig (junkErrB a))
  else junkErrB a

/-- Lines 802-818 of the source file: the response junk size error. -/
def junkErrD (a : Acc) : Option CErr :=
  if MessageResponseSize + (junkTemp1 a).responsePacketJunkSize ≥ MaxSegmentSize then
    some (ipcErrorfWrap IpcCode.invalid Fault.respSizeTooBig (junkErrC a))
  else junkErrC a

/-- The isASecOn accumulation of the junk section (lines 718-825). -/
def junkOn (a : Acc) : Bool :=
  ((((a.isASecOn || a.temp.junkPacketCount != 0) ||
    a.temp.junkPacketMinSize != 0) ||
    (junkTemp1 a).junkPacketMaxSize != 0) ||
    (junkTemp1 a).initPacketJunkSize != 0) ||
    (junkTemp1 a).responsePacketJunkSize != 0

def junkPhase (a : Acc) : Acc :=
  { d := { a.d with aSecConf := junkConfD a }, temp := junkTemp1 a,
    err := junkErrD a, isASecOn := junkOn a }

/-- Lines 827-865 of the source file: resolution of the four magic headers.
A supplied value strictly greater than 4 is installed into the device config
and the package tag; otherwise the package tag falls back to the canonical
constant (1, 2, 3, 4) and the device config field keeps its previous value. -/
def magicPhase (a : Acc) : Acc :=
  let confInit := if a.temp.initPacketMagicHeader > 4 then a.temp.initPacketMagicHeader
    else a.d.aSecConf.initPacketMagicHeader
  let tagInit := if a.temp.initPacketMagicHeader > 4 then a.temp.initPacketMagicHeader
    else 1
  let on1 := if a.temp.initPacketMagicHeader > 4 then true else a.isASecOn
  let confResp := if a.temp.responsePacketMagicHeader > 4 then a.temp.responsePacketMagicHeader
    else a.d.aSecConf.responsePacketMagicHeader
  let tagResp := if a.temp.responsePacketMagicHeader > 4 then a.temp.responsePacketMagicHeader
    else 2
  let on2 := if a.temp.responsePacketMagicHeader > 4 then true else on1
  let confUnder := if a.temp.underloadPacketMagicHeader > 4 then a.temp.underloadPacketMagicHeader
    else a.d.aSecConf.underloadPacketMagicHeader
  let tagUnder := if a.temp.underloadPacketMagicHeader > 4 then a.temp.underloadPacketMagicHeader
    else 3
  let on3 := if a.temp.underloadPacketMagicHeader > 4 then true else on2
  let confTrans := if a.temp.transportPacketMagicHeader > 4 then a.temp.transportPacketMagicHeader
    else a.d.aSecConf.transportPacketMagicHeader
  let tagTrans := if a.temp.transportPacketMagicHeader > 4 then a.temp.transportPacketMagicHeader
    else 4
  let on4 := if a.temp.transportPacketMagicHeader > 4 then true else on3
  { a with
    d := { a.d with
      aSecConf.initPacketMagicHeader := confInit,
      aSecConf.responsePacketMagicHeader := confResp,
      aSecConf.underloadPacketMagicHeader := confUnder,
      aSecConf.transportPacketMagicHeader := confTrans,
      messageInitiationType := tagInit,
      messageResponseType := tagResp,
      messageCookieReplyType := tagUnder,
      messageTransportType := tagTrans },
    isASecOn := on4 }

/-- Lines 867-894 of the source file: the isSameMap distinctness check.  The Go
map receives the four resolved tags as keys; its length is the number of
distinct tags (List.dedup). -/
def collisionCheck (a : Acc) : Acc :=
  let tags := [a.d.messageInitiationType, a.d.messageResponseType,
               a.d.messageCookieReplyType, a.d.messageTransportType]
  let errOut := if tags.dedup.length ≠ 4 then
      some (ipcErrorfWrap IpcCode.invalid Fault.magicCollision a.err)
    else a.err
  { a with err := errOut }

/-- Lines 896-930 of the source file: the junk-adjusted sizes and the dispatch
table installation, which executes whenever the two new sizes differ, pending
error or not. -/
def tablePhase (a : Acc) : Acc :=
  let newInitSize := MessageInitiationSize + a.d.aSecConf.initPacketJunkSize
  let newResponseSize := MessageResponseSize + a.d.aSecConf.responsePacketJunkSize
  let errOut := if newInitSize = newResponseSize then
      some (ipcErrorfWrap IpcCode.invalid Fault.sizesEqual a.err)
    else a.err
  let pTable := if newInitSize = newResponseSize then a.d.packetSizeToMsgType
    else [
      (newInitSize, a.d.messageInitiationType),
      (newResponseSize, a.d.messageResponseType),
      (MessageCookieReplySize, a.d.messageCookieReplyType),
      (MessageTransportSize, a.d.messageTransportType)]
  let jTable := if newInitSize = newResponseSize then a.d.msgTypeToJunkSize
    else [
      (a.d.messageInitiationType, a.d.aSecConf.initPacketJunkSize),
      (a.d.messageResponseType, a.d.aSecConf.responsePacketJunkSize),
      (a.d.messageCookieReplyType, 0),
      (a.d.messageTransportType, 0)]
  { a with
    d := { a.d with packetSizeToMsgType := pTable, msgTypeToJunkSize := jTable },
    err := errOut }

/-- The four validation and installation sections of handlePostConfig in
source order, started from a nil error and a false isASecOn flag. -/
def configPipeline (temp : ASecConf) (d : ObfState) : Acc :=
  tablePhase (collisionCheck (magicPhase (junkPhase
    { d := d, temp := temp, err := none, isASecOn := false })))

/-- Lines 703-936 of the source file: handlePostConfig.  Returns the new live
state, the (possibly mutated, it is a pointer) temporary config, and the
accumulated error.  The final isASecOn store executes unconditionally, as in
the source. -/
def handlePostConfig (temp : ASecConf) (d : ObfState) :
    ObfState × ASecConf × Option CErr :=
  if !temp.isSet then (d, temp, none)
  else
    ({ (configPipeline temp d).d with isASecOn := (configPipeline temp d).isASecOn },
     (configPipeline temp d).temp, (configPipeline temp d).err)

/-- The three device states (deviceStateDown, deviceStateUp, deviceStateClosed). -/
inductive DeviceState where
  | down
  | up
  | closed
deriving DecidableEq

/-- Go error values as far as changeState observes them: either a plain error
or (what the claim asserts) a joined pair with a primary and a secondary
cause.  The source never builds a joined value; the constructor exists so the
claim about combined errors can be stated and refuted. -/
inductive GoErr where
  | base (s : String)
  | joined (primary secondary : GoErr)
deriving DecidableEq

/-- The environment of a changeState call: the outcomes the locked up and down
procedures would report (upLocked and downLocked are effectful collaborators;
only their returned error is observed by changeState). -/
structure StateMachineEnv where
  upResult : Option GoErr
  downResult : Option GoErr
deriving DecidableEq

/-- Observed outcome of a transition: the state word afterwards, the returned
error, and whether the up and down procedures ran. -/
structure TransitionResult where
  state : DeviceState
  err : Option GoErr
  ranUp : Bool
  ranDown : Bool
deriving DecidableEq

/-- Lines 299-328 of the source file: changeState.  A closed device returns
nil at once; a request equal to the current state returns nil; a request for
up stores up, runs the up procedure and on failure falls through to the down
branch, where the down error is taken only when err is still nil. -/
def changeState (m : StateMachineEnv) (old want : DeviceState) : TransitionResult :=
  if old = DeviceState.closed then
    { state := DeviceState.closed, err := none, ranUp := false, ranDown := false }
  else if want = old then
    { state := old, err := none, ranUp := false, ranDown := false }
  else
    match want with
    | DeviceState.up =>
      match m.upResult with
      | none => { state := DeviceState.up, err := none, ranUp := true, ranDown := false }
      | some e =>
        { state := DeviceState.down, err := some e, ranUp := true, ranDown := true }
    | DeviceState.down =>
      { state := DeviceState.down, err := m.downResult, ranUp := false, ranDown := true }
    | DeviceState.closed =>
      { state := old, err := none, ranUp := false, ranDown := false }

/-- Lines 531-561 of the source file, restricted to the state word: Close
returns at once on a closed device; otherwise it stores closed and runs the
down procedure (with the rest of the teardown).  The Bool records whether the
down procedure ran. -/
def closeDevice (old : DeviceState) : DeviceState × Bool :=
  if old = DeviceState.closed then (DeviceState.closed, false)
  else (DeviceState.closed, true)

/-- The public entry points Up, Down (via changeState) and Close, acting on
the state word. -/
inductive DevOp where
  | up
  | down
  | close
deriving DecidableEq

/-- One public call, projected to the state word. -/
def runOp (m : StateMachineEnv) (s : DeviceState) : DevOp → DeviceState
  | DevOp.up => (changeState m s DeviceState.up).state
  | DevOp.down => (changeState m s DeviceState.down).state
  | DevOp.close => (closeDevice s).1

/-- A sequence of public calls, projected to the state word. -/
def runOps (m : StateMachineEnv) (s : DeviceState) (ops : List DevOp) : DeviceState :=
  ops.foldl (runOp m) s

/-- A peer as far as SetPrivateKey and the removal paths observe it: its
identity (for trie back-references), handshake.remoteStatic,
handshake.precomputedStaticStatic, and whether ExpireCurrentKeypairs ran.
Keys are abstracted to Nat. -/
structure Peer where
  id : Nat
  remoteStatic : Nat
  precomputedStaticStatic : Nat
  keypairsExpired : Bool
deriving DecidableEq

/-- The device fields touched by SetPrivateKey and peer removal: the static
identity, the peer key map (association list for the Go map), the allowed-IPs
trie projected to its leaves (prefix, peer id), the peers Stop was invoked on
(in call order), and the key the cookie checker was last initialized with. -/
structure DeviceIdent where
  privateKey : Nat
  publicKey : Nat
  keyMap : List (Nat × Peer)
  trie : List (Nat × Nat)
  stoppedPeers : List Nat
  cookieKey : Option Nat
deriving DecidableEq

/-- allowedips.RemoveByPeer: detaches every trie leaf referencing the peer. -/
def removeByPeer (d : DeviceIdent) (peer : Peer) : DeviceIdent :=
  { d with trie := d.trie.filter (fun e => e.2 ≠ peer.id) }

/-- peer.Stop, projected to the record of stopped peers. -/
def stopPeer (d : DeviceIdent) (peer : Peer) : DeviceIdent :=
  { d with stoppedPeers := d.stoppedPeers ++ [peer.id] }

/-- Lines 289-296 of the source file: removePeerLocked.  First the allowed-IPs
entries of the peer are removed, then the peer is stopped, then the key is
deleted from the peer map. -/
def removePeerLocked (d : DeviceIdent) (peer : Peer) (key : Nat) : DeviceIdent :=
  let d1 := removeByPeer d peer
  let d2 := stopPeer d1 peer
  { d2 with keyMap := d2.keyMap.filter (fun kp => kp.1 ≠ key) }

/-- Lines 509-518 of the source file: RemovePeer looks the key up and, when
present, runs removePeerLocked. -/
def RemovePeer (d : DeviceIdent) (key : Nat) : DeviceIdent :=
  match d.keyMap.find? (fun kp => kp.1 == key) with
  | some kp => removePeerLocked d kp.2 key
  | none => d

/-- Lines 520-529 of the source file: RemoveAllPeers runs removePeerLocked on
every entry and installs a fresh empty map. -/
def RemoveAllPeers (d : DeviceIdent) : DeviceIdent :=
  let d' := d.keyMap.foldl (fun acc kp => removePeerLocked acc kp.2 kp.1) d
  { d' with keyMap := [] }

/-- Lines 390-443 of the source file: SetPrivateKey.  pubFn embeds
sk.publicKey() and dhFn embeds privateKey.sharedSecret(remoteStatic) (the
discarded error aside); both are cryptographic collaborators outside the core.
An equal key returns nil at once.  Otherwise: every peer whose remoteStatic
equals the derived public key is removed via removePeerLocked; the identity
and cookie checker are updated; every surviving peer gets its static-static
secret recomputed; finally ExpireCurrentKeypairs runs on every surviving
peer. -/
def SetPrivateKey (pubFn : Nat → Nat) (dhFn : Nat → Nat → Nat)
    (d : DeviceIdent) (sk : Nat) : DeviceIdent × Option GoErr :=
  if sk = d.privateKey then (d, none)
  else
    let publicKey := pubFn sk
    let d1 := (d.keyMap.filter (fun kp => kp.2.remoteStatic = publicKey)).foldl
        (fun acc kp => removePeerLocked acc kp.2 kp.1) d
    let d2 := { d1 with privateKey := sk, publicKey := publicKey,
                        cookieKey := some publicKey }
    let d3 := { d2 with
      keyMap := d2.keyMap.map (fun (kp : Nat × Peer) => (kp.1,
        { kp.2 with precomputedStaticStatic := dhFn sk kp.2.remoteStatic })) }
    let d4 := { d3 with
      keyMap := d3.keyMap.map (fun (kp : Nat × Peer) => (kp.1,
        { kp.2 with keypairsExpired := true })) }
    (d4, none)

/-- Lines 378-388 of the source file: IsUnderLoad.  Inputs: the
UnderLoadAfterTime duration (a constant outside the given sources, kept
abstract), the handshake queue depth, the current time, and the stored
underLoadUntil timestamp (UnixNano).  Output: the reported Bool and the
underLoadUntil value after the call. -/
def IsUnderLoad (underLoadAfterTime : Int) (handshakeQueueLen : Nat)
    (now underLoadUntil : Int) : Bool × Int :=
  if handshakeQueueLen ≥ QueueHandshakeSize / 8 then
    (true, now + underLoadAfterTime)
  else
    (decide (underLoadUntil > now), underLoadUntil)

/-- Modelled from the spec: the WaitPool implementation (NewWaitPool, Get,
Put) is not among the given sources, only its test TestWaitPool is.  Per
section 4.A of the spec, Get blocks (is not enabled) while the in-flight
count already equals max (max = 0 means no gating) and then increments the
count; Put decrements it.  A step relates the in-flight count before and
after one completed operation. -/
inductive PoolStep (max : Nat) : Nat → Nat → Prop
  | get {c : Nat} : (max = 0 ∨ c < max) → PoolStep max c (c + 1)
  | put {c : Nat} : PoolStep max c (c - 1)

/-- A finite trace of interleaved Get and Put completions, as the reflexive
transitive closure of single steps. -/
def PoolReach (max : Nat) : Nat → Nat → Prop :=
  Relation.ReflTransGen (PoolStep max)

/-- A concrete idle obfuscation state for the closed theorems: canonical tags
and empty dispatch tables. -/
def obf0 : ObfState :=
  { aSecConf := { isSet := false, junkPacketCount := 0, junkPacketMinSize := 0,
                  junkPacketMaxSize := 0, initPacketJunkSize := 0,
                  responsePacketJunkSize := 0, initPacketMagicHeader := 0,
                  responsePacketMagicHeader := 0, underloadPacketMagicHeader := 0,
                  transportPacketMagicHeader := 0 },
    isASecOn := false,
    messageInitiationType := 1, messageResponseType := 2,
    messageCookieReplyType := 3, messageTransportType := 4,
    packetSizeToMsgType := [], msgTypeToJunkSize := [] }

/-- A concrete config whose init and response magic headers both resolve to 5:
validation fails, yet the junk-adjusted sizes 148 and 92 differ, so the
dispatch tables are installed. -/
def tempCollide : ASecConf :=
  { isSet := true, junkPacketCount := 0, junkPacketMinSize := 0,
    junkPacketMaxSize := 0, initPacketJunkSize := 0,
    responsePacketJunkSize := 0, initPacketMagicHeader := 5,
    responsePacketMagicHeader := 5, underloadPacketMagicHeader := 0,
    transportPacketMagicHeader := 0 }

/-- A concrete config whose response junk size 56 makes the junk-adjusted
init size and response size both 148: the sizes-equal validation fails. -/
def tempEqSizes : ASecConf :=
  { isSet := true, junkPacketCount := 0, junkPacketMinSize := 0,
    junkPacketMaxSize := 0, initPacketJunkSize := 0,
    responsePacketJunkSize := 56, initPacketMagicHeader := 0,
    responsePacketMagicHeader := 0, underloadPacketMagicHeader := 0,
    transportPacketMagicHeader := 0 }

/-- A concrete config with all fields default and isSet false. -/
def tempUnset : ASecConf :=
  { isSet := false, junkPacketCount := 0, junkPacketMinSize := 0,
    junkPacketMaxSize := 0, initPacketJunkSize := 0,
    responsePacketJunkSize := 0, initPacketMagicHeader := 0,
    responsePacketMagicHeader := 0, underloadPacketMagicHeader := 0,
    transportPacketMagicHeader := 0 }

/-- A concrete peer whose remote static 107 matches the public key derived
from the private key 7 below (pubExample 7 = 107). -/
def peerA : Peer :=
  { id := 10, remoteStatic := 107, precomputedStaticStatic := 0,
    keypairsExpired := false }

/-- A concrete peer whose remote static 222 matches no derived key used in
the witnesses. -/
def peerB : Peer :=
  { id := 11, remoteStatic := 222, precomputedStaticStatic := 0,
    keypairsExpired := false }

/-- peerB after the rotation to private key 7: recomputed shared secret
dhExample 7 222 = 7222 and expired keypairs. -/
def peerBRotated : Peer :=
  { id := 11, remoteStatic := 222, precomputedStaticStatic := 7222,
    keypairsExpired := true }

/-- A concrete two-peer device for the witnesses: peerA at key 100 matches
the public key derived from the new private key 7, peerB at key 101 does
not. -/
def devExample : DeviceIdent :=
  { privateKey := 3, publicKey := 103,
    keyMap := [(100, peerA), (101, peerB)],
    trie := [(1, 10), (2, 11), (3, 10)],
    stoppedPeers := [], cookieKey := none }

/-- Example embedding of sk.publicKey() for witnesses. -/
def pubExample : Nat → Nat := fun sk => sk + 100

/-- Example embedding of sharedSecret for witnesses. -/
def dhExample : Nat → Nat → Nat := fun sk pk => 1000 * sk + pk

/-- Whether a returned error value is a ConfigInvalid (IpcErrorInvalid) error. -/
def isConfigInvalid : Option CErr → Bool
  | none => false
  | some e => decide (e.code = IpcCode.invalid)

/-- Every error in an optional error slot carries the invalid code. -/
def ErrInvalid (o : Option CErr) : Prop := ∀ e, o = some e → e.code = IpcCode.invalid

/- ------------------------------------------------------------------ -/
/- Helper lemmas about the handlePostConfig phases.                    -/
/- ------------------------------------------------------------------ -/

theorem ipcErrorfWrap_code (k : Fault) (p : Option CErr) :
    (ipcErrorfWrap IpcCode.invalid k p).code = IpcCode.invalid := by
  cases p <;> rfl

theorem errInvalid_step {o o' : Option CErr}
    (hc : o' = o ∨ ∃ k p, o' = some (ipcErrorfWrap IpcCode.invalid k p))
    (h : ErrInvalid o) : ErrInvalid o' := by
  rcases hc with rfl | ⟨k, p, rfl⟩
  · exact h
  · intro e he
    injection he with he'
    rw [← he']
    exact ipcErrorfWrap_code k p

theorem isConfigInvalid_of (o : Option CErr) (h1 : o.isSome = true)
    (h2 : ErrInvalid o) : isConfigInvalid o = true := by
  cases o with
  | none => simp at h1
  | some e => simp [isConfigInvalid, h2 e rfl]

/-- junkPhase changes neither the magic header fields of the temp config, nor
the tags and tables of the live state. -/
theorem junkPhase_frame (a : Acc) :
    (junkPhase a).temp.initPacketMagicHeader = a.temp.initPacketMagicHeader ∧
    (junkPhase a).temp.responsePacketMagicHeader = a.temp.responsePacketMagicHeader ∧
    (junkPhase a).temp.underloadPacketMagicHeader = a.temp.underloadPacketMagicHeader ∧
    (junkPhase a).temp.transportPacketMagicHeader = a.temp.transportPacketMagicHeader ∧
    (junkPhase a).d.messageInitiationType = a.d.messageInitiationType ∧
    (junkPhase a).d.messageResponseType = a.d.messageResponseType ∧
    (junkPhase a).d.messageCookieReplyType = a.d.messageCookieReplyType ∧
    (junkPhase a).d.messageTransportType = a.d.messageTransportType ∧
    (junkPhase a).d.packetSizeToMsgType = a.d.packetSizeToMsgType ∧
    (junkPhase a).d.msgTypeToJunkSize = a.d.msgTypeToJunkSize :=
  ⟨rfl, rfl, rfl, rfl, rfl, rfl, rfl, rfl, rfl, rfl⟩

/-- Each step of the junk error chain keeps the incoming error or wraps it
into a fresh invalid error. -/
theorem junkErrA_cases (a : Acc) : junkErrA a = a.err ∨
    ∃ k p, junkErrA a = some (ipcErrorfWrap IpcCode.invalid k p) := by
  unfold junkErrA
  split_ifs
  · exact Or.inr ⟨_, _, rfl⟩
  · exact Or.inl rfl

theorem junkErrB_cases (a : Acc) : junkErrB a = junkErrA a ∨
    ∃ k p, junkErrB a = some (ipcErrorfWrap IpcCode.invalid k p) := by
  unfold junkErrB
  split_ifs <;> first
    | exact Or.inl rfl
    | exact Or.inr ⟨_, _, rfl⟩

theorem junkErrC_cases (a : Acc) : junkErrC a = junkErrB a ∨
    ∃ k p, junkErrC a = some (ipcErrorfWrap IpcCode.invalid k p) := by
  unfold junkErrC
  split_ifs <;> first
    | exact Or.inl rfl
    | exact Or.inr ⟨_, _, rfl⟩

theorem junkErrD_cases (a : Acc) : junkErrD a = junkErrC a ∨
    ∃ k p, junkErrD a = some (ipcErrorfWrap IpcCode.invalid k p) := by
  unfold junkErrD
  split_ifs <;> first
    | exact Or.inl rfl
    | exact Or.inr ⟨_, _, rfl⟩

/-- The junk section only produces invalid errors. -/
theorem junkPhase_errInvalid (a : Acc) (h : ErrInvalid a.err) :
    ErrInvalid (junkPhase a).err :=
  errInvalid_step (junkErrD_cases a)
    (errInvalid_step (junkErrC_cases a)
      (errInvalid_step (junkErrB_cases a)
        (errInvalid_step (junkErrA_cases a) h)))

/-- magicPhase resolves the four tags from the supplied magic headers, with
fallback to the canonical constants, and touches nothing else that the later
phases or the claims read. -/
theorem magicPhase_tags (a : Acc) :
    (magicPhase a).d.messageInitiationType =
      (if a.temp.initPacketMagicHeader > 4 then a.temp.initPacketMagicHeader else 1) ∧
    (magicPhase a).d.messageResponseType =
      (if a.temp.responsePacketMagicHeader > 4 then a.temp.responsePacketMagicHeader else 2) ∧
    (magicPhase a).d.messageCookieReplyType =
      (if a.temp.underloadPacketMagicHeader > 4 then a.temp.underloadPacketMagicHeader else 3) ∧
    (magicPhase a).d.messageTransportType =
      (if a.temp.transportPacketMagicHeader > 4 then a.temp.transportPacketMagicHeader else 4) ∧
    (magicPhase a).temp = a.temp ∧
    (magicPhase a).err = a.err ∧
    (magicPhase a).d.packetSizeToMsgType = a.d.packetSizeToMsgType ∧
    (magicPhase a).d.msgTypeToJunkSize = a.d.msgTypeToJunkSize ∧
    (magicPhase a).d.aSecConf.initPacketJunkSize = a.d.aSecConf.initPacketJunkSize ∧
    (magicPhase a).d.aSecConf.responsePacketJunkSize = a.d.aSecConf.responsePacketJunkSize :=
  ⟨rfl, rfl, rfl, rfl, rfl, rfl, rfl, rfl, rfl, rfl⟩

/-- collisionCheck only ever touches the error slot. -/
theorem collisionCheck_d (a : Acc) : (collisionCheck a).d = a.d ∧
    (collisionCheck a).temp = a.temp :=
  ⟨rfl, rfl⟩

/-- The error after collisionCheck is the incoming error or a freshly wrapped
invalid error. -/
theorem collisionCheck_err (a : Acc) : (collisionCheck a).err = a.err ∨
    ∃ k p, (collisionCheck a).err = some (ipcErrorfWrap IpcCode.invalid k p) := by
  simp only [collisionCheck]
  split_ifs <;> first
    | exact Or.inl rfl
    | exact Or.inr ⟨_, _, rfl⟩

/-- When the four resolved tags are not distinct, collisionCheck records an
error. -/
theorem collisionCheck_collision (a : Acc)
    (h : (([a.d.messageInitiationType, a.d.messageResponseType,
            a.d.messageCookieReplyType, a.d.messageTransportType] : List Nat).dedup).length ≠ 4) :
    ((collisionCheck a).err).isSome = true := by
  simp only [collisionCheck, if_pos h]
  rfl

/-- tablePhase keeps the tags, the whole device config and the temp config;
the dispatch tables stay untouched exactly when the two junk-adjusted sizes
coincide. -/
theorem tablePhase_frame (a : Acc) :
    (tablePhase a).d.messageInitiationType = a.d.messageInitiationType ∧
    (tablePhase a).d.messageResponseType = a.d.messageResponseType ∧
    (tablePhase a).d.messageCookieReplyType = a.d.messageCookieReplyType ∧
    (tablePhase a).d.messageTransportType = a.d.messageTransportType ∧
    (tablePhase a).d.aSecConf = a.d.aSecConf ∧
    (tablePhase a).temp = a.temp :=
  ⟨rfl, rfl, rfl, rfl, rfl, rfl⟩

/-- The error after tablePhase is the incoming error or a freshly wrapped
invalid error. -/
theorem tablePhase_err (a : Acc) : (tablePhase a).err = a.err ∨
    ∃ k p, (tablePhase a).err = some (ipcErrorfWrap IpcCode.invalid k p) := by
  simp only [tablePhase]
  split_ifs <;> first
    | exact Or.inl rfl
    | exact Or.inr ⟨_, _, rfl⟩

/-- tablePhase keeps the error present once it is present. -/
theorem tablePhase_err_isSome (a : Acc) (h : (a.err).isSome = true) :
    ((tablePhase a).err).isSome = true := by
  simp only [tablePhase]
  split_ifs <;> simp_all

/-- In the equal-sizes branch tablePhase leaves the live state untouched and
records an error. -/
theorem tablePhase_equal_sizes (a : Acc)
    (h : MessageInitiationSize + a.d.aSecConf.initPacketJunkSize =
         MessageResponseSize + a.d.aSecConf.responsePacketJunkSize) :
    (tablePhase a).d = a.d ∧ ((tablePhase a).err).isSome = true := by
  simp only [tablePhase, if_pos h]
  exact ⟨trivial, rfl⟩

/-- A four element list with a repeated element dedups to fewer than four
keys. -/
theorem dedup_length_ne_four {a b c d : Nat} (h : ¬ ([a, b, c, d] : List Nat).Nodup) :
    (([a, b, c, d] : List Nat).dedup).length ≠ 4 := by
  intro hlen
  apply h
  have hs : List.Sublist (([a, b, c, d] : List Nat).dedup) [a, b, c, d] :=
    List.dedup_sublist _
  have he : ([a, b, c, d] : List Nat).dedup = [a, b, c, d] :=
    hs.eq_of_length (by rw [hlen]; rfl)
  exact he ▸ List.nodup_dedup ([a, b, c, d] : List Nat)

/-- The chained error of the whole pipeline only carries invalid codes. -/
theorem pipeline_errInvalid (a : Acc) (h : ErrInvalid a.err) :
    ErrInvalid (tablePhase (collisionCheck (magicPhase (junkPhase a)))).err := by
  have h1 := junkPhase_errInvalid a h
  have h2 := errInvalid_step (Or.inl (magicPhase_tags (junkPhase a)).2.2.2.2.2.1) h1
  have h3 := errInvalid_step (collisionCheck_err (magicPhase (junkPhase a))) h2
  exact errInvalid_step (tablePhase_err (collisionCheck (magicPhase (junkPhase a)))) h3

theorem errInvalid_none : ErrInvalid none := by
  intro e he
  exact Option.noConfusion he

/-- On a set config, handlePostConfig is the pipeline with the final isASecOn
store. -/
theorem handlePostConfig_isSet (temp : ASecConf) (d : ObfState) (hset : temp.isSet = true) :
    handlePostConfig temp d =
      ({ (configPipeline temp d).d with isASecOn := (configPipeline temp d).isASecOn },
       (configPipeline temp d).temp, (configPipeline temp d).err) := by
  simp [handlePostConfig, hset]

/- ------------------------------------------------------------------ -/
/- Helper lemmas about peer removal.                                   -/
/- ------------------------------------------------------------------ -/

theorem removePeerLocked_keyMap_mem {d : DeviceIdent} {p : Peer} {k : Nat}
    {kp : Nat × Peer} (h : kp ∈ (removePeerLocked d p k).keyMap) :
    kp ∈ d.keyMap ∧ kp.1 ≠ k := by
  simp only [removePeerLocked, stopPeer, removeByPeer, List.mem_filter,
    decide_eq_true_eq] at h
  exact h

theorem removePeerLocked_trie_mem {d : DeviceIdent} {p : Peer} {k : Nat}
    {e : Nat × Nat} (h : e ∈ (removePeerLocked d p k).trie) :
    e ∈ d.trie ∧ e.2 ≠ p.id := by
  simp only [removePeerLocked, stopPeer, removeByPeer, List.mem_filter,
    decide_eq_true_eq] at h
  exact h

theorem foldRemove_keyMap_mem {L : List (Nat × Peer)} {d : DeviceIdent}
    {kp : Nat × Peer}
    (h : kp ∈ (L.foldl (fun acc q => removePeerLocked acc q.2 q.1) d).keyMap) :
    kp ∈ d.keyMap ∧ ∀ m ∈ L, kp.1 ≠ m.1 := by
  induction L generalizing d with
  | nil => simpa using h
  | cons q rest ih =>
    rw [List.foldl_cons] at h
    obtain ⟨h1, h2⟩ := ih h
    obtain ⟨h3, h4⟩ := removePeerLocked_keyMap_mem h1
    refine ⟨h3, ?_⟩
    intro m hm
    rcases List.mem_cons.mp hm with heq | hm'
    · rw [heq]
      exact h4
    · exact h2 m hm'

/- ------------------------------------------------------------------ -/
/- Claim theorems.                                                     -/
/- ------------------------------------------------------------------ -/

/-- C1 (counterexample): the claim that handlePostConfig is all-or-nothing is
false.  With isSet, both magic headers 5 (a collision) and zero junk sizes,
handlePostConfig returns an error, yet it changes the live message-type tags
and replaces the dispatch table packetSizeToMsgType, because the table install
only checks that the junk-adjusted sizes differ, not that validation passed. -/
theorem C1_counterexample :
    (handlePostConfig tempCollide obf0).2.2.isSome = true ∧
    (handlePostConfig tempCollide obf0).1.messageInitiationType ≠
      obf0.messageInitiationType ∧
    (handlePostConfig tempCollide obf0).1.packetSizeToMsgType ≠
      obf0.packetSizeToMsgType := by
  decide

/-- C1 (amended): for a set config, when two of the four resolved magic tags
coincide or the junk-adjusted init and response sizes coincide,
handlePostConfig does return a ConfigInvalid error; but the live state is only
partially protected: the two dispatch tables are left unchanged exactly in
the equal-sizes case, while on a magic collision with distinct sizes the
tables (and the tags and the accepted aSecConf fields) are still replaced. -/
theorem C1_partial_mutation (temp : ASecConf) (d : ObfState) (hset : temp.isSet = true) :
    (¬ ([(handlePostConfig temp d).1.messageInitiationType,
         (handlePostConfig temp d).1.messageResponseType,
         (handlePostConfig temp d).1.messageCookieReplyType,
         (handlePostConfig temp d).1.messageTransportType] : List Nat).Nodup →
      isConfigInvalid (handlePostConfig temp d).2.2 = true) ∧
    (MessageInitiationSize + (handlePostConfig temp d).1.aSecConf.initPacketJunkSize =
        MessageResponseSize + (handlePostConfig temp d).1.aSecConf.responsePacketJunkSize →
      isConfigInvalid (handlePostConfig temp d).2.2 = true ∧
      (handlePostConfig temp d).1.packetSizeToMsgType = d.packetSizeToMsgType ∧
      (handlePostConfig temp d).1.msgTypeToJunkSize = d.msgTypeToJunkSize) := by
  obtain ⟨-, -, -, -, j5, j6, j7, j8, j9, j10⟩ :=
    junkPhase_frame { d := d, temp := temp, err := none, isASecOn := false }
  obtain ⟨-, -, -, -, -, -, m7, m8, -, -⟩ :=
    magicPhase_tags (junkPhase { d := d, temp := temp, err := none, isASecOn := false })
  obtain ⟨cd, -⟩ :=
    collisionCheck_d (magicPhase (junkPhase
      { d := d, temp := temp, err := none, isASecOn := false }))
  obtain ⟨t1, t2, t3, t4, t5, -⟩ :=
    tablePhase_frame (collisionCheck (magicPhase (junkPhase
      { d := d, temp := temp, err := none, isASecOn := false })))
  rw [handlePostConfig_isSet temp d hset]
  simp only [configPipeline]
  constructor
  · intro hnodup
    rw [t1, t2, t3, t4, cd] at hnodup
    have hded := dedup_length_ne_four hnodup
    have h1 := collisionCheck_collision _ hded
    have h2 := tablePhase_err_isSome _ h1
    exact isConfigInvalid_of _ h2
      (pipeline_errInvalid { d := d, temp := temp, err := none, isASecOn := false }
        errInvalid_none)
  · intro hsz
    rw [t5] at hsz
    obtain ⟨hd, hsome⟩ := tablePhase_equal_sizes _ hsz
    refine ⟨isConfigInvalid_of _ ?_
      (pipeline_errInvalid { d := d, temp := temp, err := none, isASecOn := false }
        errInvalid_none), ?_, ?_⟩
    · exact hsome
    · rw [hd, cd, m7, j9]
    · rw [hd, cd, m8, j10]

/-- C5: for a set config, each of the four magic tags is the supplied value
when it is strictly greater than 4 and the canonical constant (1, 2, 3, 4)
otherwise, and when the four resolved tags are not pairwise distinct the call
returns a ConfigInvalid error. -/
theorem C5_magic_resolution (temp : ASecConf) (d : ObfState) (hset : temp.isSet = true) :
    (handlePostConfig temp d).1.messageInitiationType =
      (if temp.initPacketMagicHeader > 4 then temp.initPacketMagicHeader else 1) ∧
    (handlePostConfig temp d).1.messageResponseType =
      (if temp.responsePacketMagicHeader > 4 then temp.responsePacketMagicHeader else 2) ∧
    (handlePostConfig temp d).1.messageCookieReplyType =
      (if temp.underloadPacketMagicHeader > 4 then temp.underloadPacketMagicHeader else 3) ∧
    (handlePostConfig temp d).1.messageTransportType =
      (if temp.transportPacketMagicHeader > 4 then temp.transportPacketMagicHeader else 4) ∧
    (¬ ([(handlePostConfig temp d).1.messageInitiationType,
         (handlePostConfig temp d).1.messageResponseType,
         (handlePostConfig temp d).1.messageCookieReplyType,
         (handlePostConfig temp d).1.messageTransportType] : List Nat).Nodup →
      isConfigInvalid (handlePostConfig temp d).2.2 = true) := by
  obtain ⟨j1, j2, j3, j4, -, -, -, -, -, -⟩ :=
    junkPhase_frame { d := d, temp := temp, err := none, isASecOn := false }
  obtain ⟨m1, m2, m3, m4, -, -, -, -, -, -⟩ :=
    magicPhase_tags (junkPhase { d := d, temp := temp, err := none, isASecOn := false })
  obtain ⟨cd, -⟩ :=
    collisionCheck_d (magicPhase (junkPhase
      { d := d, temp := temp, err := none, isASecOn := false }))
  obtain ⟨t1, t2, t3, t4, -, -⟩ :=
    tablePhase_frame (collisionCheck (magicPhase (junkPhase
      { d := d, temp := temp, err := none, isASecOn := false })))
  rw [handlePostConfig_isSet temp d hset]
  simp only [configPipeline]
  refine ⟨?_, ?_, ?_, ?_, ?_⟩
  · rw [t1, cd, m1, j1]
  · rw [t2, cd, m2, j2]
  · rw [t3, cd, m3, j3]
  · rw [t4, cd, m4, j4]
  · intro hnodup
    rw [t1, t2, t3, t4, cd] at hnodup
    have hded := dedup_length_ne_four hnodup
    have h1 := collisionCheck_collision _ hded
    have h2 := tablePhase_err_isSome _ h1
    exact isConfigInvalid_of _ h2
      (pipeline_errInvalid { d := d, temp := temp, err := none, isASecOn := false }
        errInvalid_none)

/-- C5 (witness): the colliding concrete config resolves both the init and the
response tag to the supplied value 5 and yields the invalid error. -/
theorem C5_magic_resolution_witness :
    (handlePostConfig tempCollide obf0).1.messageInitiationType = 5 ∧
    isConfigInvalid (handlePostConfig tempCollide obf0).2.2 = true := by
  have h := C5_magic_resolution tempCollide obf0 rfl
  exact ⟨by rw [h.1]; decide, h.2.2.2.2 (by decide)⟩

/-- C1 (witness for the amended claim): a config whose response junk size 56
makes the junk-adjusted sizes both 148 yields the invalid error and leaves
both dispatch tables unchanged. -/
theorem C1_partial_mutation_witness :
    isConfigInvalid (handlePostConfig tempEqSizes obf0).2.2 = true ∧
    (handlePostConfig tempEqSizes obf0).1.packetSizeToMsgType = obf0.packetSizeToMsgType ∧
    (handlePostConfig tempEqSizes obf0).1.msgTypeToJunkSize = obf0.msgTypeToJunkSize := by
  have h := C1_partial_mutation tempEqSizes obf0 rfl
  exact h.2 (by decide)

/-- C10: with isSet false, handlePostConfig returns nil and the whole
obfuscation state and the temp config are returned unchanged. -/
theorem C10_unset_noop (temp : ASecConf) (d : ObfState) (h : temp.isSet = false) :
    handlePostConfig temp d = (d, temp, none) := by
  simp [handlePostConfig, h]

/-- C10 (witness): the all-default unset config leaves the idle state
untouched. -/
theorem C10_unset_noop_witness :
    handlePostConfig tempUnset obf0 = (obf0, tempUnset, none) :=
  C10_unset_noop tempUnset obf0 rfl

theorem foldRemove_trie_mem {L : List (Nat × Peer)} {d : DeviceIdent}
    {e : Nat × Nat}
    (h : e ∈ (L.foldl (fun acc q => removePeerLocked acc q.2 q.1) d).trie) :
    e ∈ d.trie ∧ ∀ m ∈ L, e.2 ≠ m.2.id := by
  induction L generalizing d with
  | nil => simpa using h
  | cons q rest ih =>
    rw [List.foldl_cons] at h
    obtain ⟨h1, h2⟩ := ih h
    obtain ⟨h3, h4⟩ := removePeerLocked_trie_mem h1
    refine ⟨h3, ?_⟩
    intro m hm
    rcases List.mem_cons.mp hm with heq | hm'
    · rw [heq]
      exact h4
    · exact h2 m hm'

/-- C2 (counterexample): obtained when the up procedure fails with an error u
while the down procedure fails with an error d, the Down-to-Up transition
returns exactly the up error; the down error is discarded, not joined as a
secondary cause (the returned error is not a combined value). -/
theorem C2_counterexample :
    (changeState { upResult := some (GoErr.base "up"), downResult := some (GoErr.base "down") }
        DeviceState.down DeviceState.up).err = some (GoErr.base "up") ∧
    (changeState { upResult := some (GoErr.base "up"), downResult := some (GoErr.base "down") }
        DeviceState.down DeviceState.up).err ≠
      some (GoErr.joined (GoErr.base "up") (GoErr.base "down")) := by
  decide

/-- C2 (amended): if the up procedure fails during Down-to-Up, changeState
drives the device back through the down procedure and returns the up error
alone, discarding any error of the down procedure; the down error is returned
only on a direct Down transition, where the up procedure did not run at
all. -/
theorem C2_up_failure (m : StateMachineEnv) (e : GoErr) (h : m.upResult = some e) :
    changeState m DeviceState.down DeviceState.up =
      { state := DeviceState.down, err := some e, ranUp := true, ranDown := true } ∧
    changeState m DeviceState.up DeviceState.down =
      { state := DeviceState.down, err := m.downResult, ranUp := false, ranDown := true } := by
  constructor
  · simp [changeState, h]
  · simp [changeState]

/-- C2 (witness): with concrete up and down errors the transition outcome is
the up error alone. -/
theorem C2_up_failure_witness :
    changeState { upResult := some (GoErr.base "up"), downResult := some (GoErr.base "down") }
        DeviceState.down DeviceState.up =
      { state := DeviceState.down, err := some (GoErr.base "up"),
        ranUp := true, ranDown := true } ∧
    changeState { upResult := some (GoErr.base "up"), downResult := some (GoErr.base "down") }
        DeviceState.up DeviceState.down =
      { state := DeviceState.down, err := some (GoErr.base "down"),
        ranUp := false, ranDown := true } :=
  C2_up_failure _ _ rfl

/-- C3: the closed state is absorbing.  A transition request on a closed
device returns nil without running the up or the down procedure; Close on a
closed device returns without running the down procedure; and after any
sequence of Up, Down and Close calls starting from Closed the state word is
still Closed. -/
theorem C3_closed_absorbing :
    (∀ (m : StateMachineEnv) (want : DeviceState),
      changeState m DeviceState.closed want =
        { state := DeviceState.closed, err := none, ranUp := false, ranDown := false }) ∧
    closeDevice DeviceState.closed = (DeviceState.closed, false) ∧
    (∀ (m : StateMachineEnv) (ops : List DevOp),
      runOps m DeviceState.closed ops = DeviceState.closed) := by
  refine ⟨fun m want => by simp [changeState], rfl, fun m ops => ?_⟩
  induction ops with
  | nil => rfl
  | cons op rest ih =>
    have hstep : runOp m DeviceState.closed op = DeviceState.closed := by
      cases op <;> simp [runOp, changeState, closeDevice]
    rw [runOps, List.foldl_cons, hstep]
    exact ih

/-- C4: after SetPrivateKey with a key different from the installed one, every
peer left in the registry has a remote static different from the new derived
public key, its precomputed static-static secret equal to the shared secret of
the new key and its remote static, and its current keypairs expired. -/
theorem C4_identity_rotation (pubFn : Nat → Nat) (dhFn : Nat → Nat → Nat)
    (d : DeviceIdent) (sk : Nat) (h : sk ≠ d.privateKey) :
    ∀ kp ∈ (SetPrivateKey pubFn dhFn d sk).1.keyMap,
      kp.2.remoteStatic ≠ pubFn sk ∧
      kp.2.precomputedStaticStatic = dhFn sk kp.2.remoteStatic ∧
      kp.2.keypairsExpired = true := by
  intro kp hkp
  simp only [SetPrivateKey, if_neg h, List.mem_map] at hkp
  obtain ⟨kp1, ⟨kp0, hkp0, hkp1⟩, hkp2⟩ := hkp
  obtain ⟨h0, hrem⟩ := foldRemove_keyMap_mem hkp0
  subst hkp1
  subst hkp2
  refine ⟨?_, rfl, rfl⟩
  intro hmatch
  have hkp0L : kp0 ∈ d.keyMap.filter (fun kp => kp.2.remoteStatic = pubFn sk) := by
    simp only [List.mem_filter, decide_eq_true_eq]
    exact ⟨h0, hmatch⟩
  exact hrem kp0 hkp0L rfl

/-- C4 (witness): for the concrete two-peer device and the fresh key 7, the
surviving peer keeps a distinct remote static, carries the recomputed shared
secret and has expired keypairs. -/
theorem C4_identity_rotation_witness :
    peerBRotated.remoteStatic ≠ pubExample 7 ∧
    peerBRotated.precomputedStaticStatic = dhExample 7 peerBRotated.remoteStatic ∧
    peerBRotated.keypairsExpired = true :=
  C4_identity_rotation pubExample dhExample devExample 7 (by decide)
    (101, peerBRotated) (by decide)

/-- C6: IsUnderLoad reports load exactly when the handshake queue depth
reaches QueueHandshakeSize / 8 = 128; a positive reading stores
now + UnderLoadAfterTime into underLoadUntil, and below the threshold the
result is true exactly when now is still strictly before the stored
underLoadUntil timestamp, which is left unchanged. -/
theorem C6_under_load (underLoadAfterTime : Int) (q : Nat) (now st : Int) :
    QueueHandshakeSize / 8 = 128 ∧
    IsUnderLoad underLoadAfterTime q now st =
      (if QueueHandshakeSize / 8 ≤ q then (true, now + underLoadAfterTime)
       else (decide (now < st), st)) :=
  ⟨rfl, rfl⟩

/-- C7: removePeerLocked removes the allowed-IPs entries of the peer before
the peer is stopped (the state handed to Stop already has no leaf of the
peer); after RemovePeer the key is gone from the registry and no trie leaf
references the removed peer; after RemoveAllPeers the registry is empty and no
trie leaf references any former peer; and the self-loop removal inside
SetPrivateKey leaves neither a registry entry nor a trie leaf of a removed
peer. -/
theorem C7_removal_cleanup :
    (∀ (d : DeviceIdent) (p : Peer), ∀ e ∈ (removeByPeer d p).trie, e.2 ≠ p.id) ∧
    (∀ (d : DeviceIdent) (key : Nat) (kp : Nat × Peer),
      d.keyMap.find? (fun q => q.1 == key) = some kp →
        (RemovePeer d key).keyMap.find? (fun q => q.1 == key) = none ∧
        ∀ e ∈ (RemovePeer d key).trie, e.2 ≠ kp.2.id) ∧
    (∀ d : DeviceIdent, (RemoveAllPeers d).keyMap = [] ∧
      ∀ kp ∈ d.keyMap, ∀ e ∈ (RemoveAllPeers d).trie, e.2 ≠ kp.2.id) ∧
    (∀ (pubFn : Nat → Nat) (dhFn : Nat → Nat → Nat) (d : DeviceIdent) (sk : Nat),
      sk ≠ d.privateKey →
      ∀ kp ∈ d.keyMap, kp.2.remoteStatic = pubFn sk →
        (SetPrivateKey pubFn dhFn d sk).1.keyMap.find? (fun q => q.1 == kp.1) = none ∧
        ∀ e ∈ (SetPrivateKey pubFn dhFn d sk).1.trie, e.2 ≠ kp.2.id) := by
  refine ⟨?_, ?_, ?_, ?_⟩
  · intro d p e he
    simp only [removeByPeer, List.mem_filter, decide_eq_true_eq] at he
    exact he.2
  · intro d key kp hfind
    simp only [RemovePeer, hfind]
    constructor
    · rw [List.find?_eq_none]
      intro x hx
      have := (removePeerLocked_keyMap_mem hx).2
      simpa using this
    · intro e he
      exact (removePeerLocked_trie_mem he).2
  · intro d
    refine ⟨rfl, ?_⟩
    intro kp hkp e he
    have he' : e ∈ (d.keyMap.foldl (fun acc q => removePeerLocked acc q.2 q.1) d).trie := he
    exact (foldRemove_trie_mem he').2 kp hkp
  · intro pubFn dhFn d sk hsk kp hkp hmatch
    have hkpL : kp ∈ d.keyMap.filter (fun q => q.2.remoteStatic = pubFn sk) := by
      simp only [List.mem_filter, decide_eq_true_eq]
      exact ⟨hkp, hmatch⟩
    constructor
    · rw [List.find?_eq_none]
      intro x hx
      simp only [SetPrivateKey, if_neg hsk, List.mem_map] at hx
      obtain ⟨x1, ⟨x0, hx0, hx1⟩, hx2⟩ := hx
      have := (foldRemove_keyMap_mem hx0).2 kp hkpL
      subst hx1
      subst hx2
      simpa using this
    · intro e he
      simp only [SetPrivateKey, if_neg hsk] at he
      exact (foldRemove_trie_mem he).2 kp hkpL

/-- C7 (witness): on the concrete device, removing the peer at key 100 empties
its registry slot, and the remaining trie leaf (2, 11) does not reference the
removed peer 10. -/
theorem C7_removal_cleanup_witness :
    (RemovePeer devExample 100).keyMap.find? (fun q => q.1 == 100) = none ∧
    (11 : Nat) ≠ 10 := by
  have h := C7_removal_cleanup.2.1 devExample 100 (100, peerA) (by decide)
  exact ⟨h.1, h.2 (2, 11) (by decide)⟩

/-- C8 (modelled from the spec, the WaitPool implementation is outside the
given sources): in every trace of completed Get and Put steps from an empty
pool with a positive ceiling, the in-flight count never exceeds max, and the
Get step is disabled (blocks) while the count equals max. -/
theorem C8_pool_ceiling (max c : Nat) (hmax : 0 < max) (h : PoolReach max 0 c) :
    c ≤ max ∧ ¬ PoolStep max max (max + 1) := by
  constructor
  · induction h with
    | refl => exact Nat.zero_le _
    | tail hr step ih =>
      cases step with
      | get hc =>
        rcases hc with h0 | hlt
        · omega
        · omega
      | put => omega
  · intro hs
    generalize hgen : max + 1 = n at hs
    cases hs with
    | get hc =>
      rcases hc with h0 | hlt
      · omega
      · omega
    | put => omega

/-- C8 (witness): a single completed Get from the empty pool with ceiling 2
reaches count 1, within the ceiling, and Get from a full pool is disabled. -/
theorem C8_pool_ceiling_witness :
    (1 : Nat) ≤ 2 ∧ ¬ PoolStep 2 2 3 := by
  have hr : PoolReach 2 0 1 :=
    Relation.ReflTransGen.single (PoolStep.get (Or.inr (by decide)))
  exact C8_pool_ceiling 2 1 (by decide) hr

/-- C9: SetPrivateKey with the currently installed private key is a no-op: it
returns nil and the device (registry, peers, identity, trie, cookie state) is
returned unchanged. -/
theorem C9_same_key (pubFn : Nat → Nat) (dhFn : Nat → Nat → Nat)
    (d : DeviceIdent) (sk : Nat) (h : sk = d.privateKey) :
    SetPrivateKey pubFn dhFn d sk = (d, none) := by
  simp [SetPrivateKey, h]

/-- C9 (witness): re-installing the concrete key 3 leaves the concrete device
untouched. -/
theorem C9_same_key_witness :
    SetPrivateKey pubExample dhExample devExample 3 = (devExample, none) :=
  C9_same_key pubExample dhExample devExample 3 rfl

end Cyanide
